import Mathlib

/-!
Verification development for scripts/generate_test_steps.py: a shallow
embedding of the DataApp analyzer (UI-paradigm classification, navigation
extraction post-processing, chat entry-point assembly, UI-graph build) and of
the test-step composer (TestStepGenerator), together with theorems about the
composed step sequences.

Python strings are modelled as Lean String values; the Python string
operations used by the script (substring membership, replace, strip, lower,
upper, split-by-first-occurrence, last path segment, space-join) are
re-implemented below by structural recursion over the underlying character
lists, following CPython semantics for the call sites that occur in the
script. Integer-valued configuration entries (wait times) are modelled as
Nat, matching the non-negative integer literals of the shipped configuration.
-/

namespace GenerateTestSteps

/-- Python needle-is-at-start test over character lists:
first argument is the needle, second the haystack. -/
def charsStartWith : List Char → List Char → Bool
  | [], _ => true
  | _ :: _, [] => false
  | a :: as, b :: bs => a == b && charsStartWith as bs

/-- Python substring membership (the in operator) over character lists:
first argument is the haystack, second the needle. -/
def charsContain : List Char → List Char → Bool
  | [], needle => needle.isEmpty
  | c :: rest, needle => charsStartWith needle (c :: rest) || charsContain rest needle

/-- Left-to-right, non-overlapping replacement of a pattern, as in the Python
str.replace method. The first argument is recursion fuel; it is instantiated
with the length of the string, which bounds the number of steps because every
step consumes at least one character of the haystack. The script never calls
replace with an empty pattern; for an empty pattern this returns the string
unchanged. -/
def charsReplaceAux : Nat → List Char → List Char → List Char → List Char
  | 0, s, _, _ => s
  | _ + 1, [], _, _ => []
  | fuel + 1, c :: rest, pat, rep =>
    if !pat.isEmpty && charsStartWith pat (c :: rest) then
      rep ++ charsReplaceAux fuel (List.drop (pat.length - 1) rest) pat rep
    else
      c :: charsReplaceAux fuel rest pat rep

/-- Remove the characters satisfying p from both ends, as in Python strip. -/
def charsStrip (p : Char → Bool) (s : List Char) : List Char :=
  ((s.dropWhile p).reverse.dropWhile p).reverse

/-- The characters after the last occurrence of sep; the whole string when
sep does not occur. This is the Python expression s.split(sep)[-1] for a
one-character separator. -/
def charsAfterLast (sep : Char) (s : List Char) : List Char :=
  s.foldl (fun acc c => if c == sep then [] else acc ++ [c]) []

/-- The characters before the first occurrence of sep; the whole string when
sep does not occur. This is the Python expression s.split(sep)[0]. -/
def charsBeforeFirst : List Char → List Char → List Char
  | [], _ => []
  | c :: rest, sep =>
    if !sep.isEmpty && charsStartWith sep (c :: rest) then []
    else c :: charsBeforeFirst rest sep

/-- Lexicographic string comparison by code point, as used by the Python
tuple sort key in TestStepGenerator.add_navigation_steps. -/
def charsLe : List Char → List Char → Bool
  | [], _ => true
  | _ :: _, [] => false
  | a :: as, b :: bs => if a < b then true else if b < a then false else charsLe as bs

/-- Python: sub in s. -/
def pyContains (s sub : String) : Bool := charsContain s.data sub.data

/-- Python: s.startswith(pat). -/
def pyStartsWith (s pat : String) : Bool := charsStartWith pat.data s.data

/-- Python: s.replace(pat, rep). -/
def pyReplace (s pat rep : String) : String :=
  ⟨charsReplaceAux s.data.length s.data pat.data rep.data⟩

/-- Python: s.lower() (ASCII case mapping, which covers every string the
script manipulates). -/
def pyLower (s : String) : String := ⟨s.data.map Char.toLower⟩

/-- Python: s.upper() (ASCII case mapping). -/
def pyUpper (s : String) : String := ⟨s.data.map Char.toUpper⟩

/-- Python: s.strip(). -/
def pyStrip (s : String) : String := ⟨charsStrip Char.isWhitespace s.data⟩

/-- Python: s.strip(the slash character). -/
def pyStripSlashes (s : String) : String := ⟨charsStrip (· == '/') s.data⟩

/-- Python: s.split(the slash character)[-1]. -/
def pyLastSlashSegment (s : String) : String := ⟨charsAfterLast '/' s.data⟩

/-- Python: s.split(sep)[0]. -/
def pyBeforeFirst (s sep : String) : String := ⟨charsBeforeFirst s.data sep.data⟩

/-- Python: " ".join(steps). -/
def pyJoin (steps : List String) : String := String.intercalate " " steps

/-- String order induced by the per-code-point comparison. -/
def pyStrLe (a b : String) : Bool := charsLe a.data b.data

/-- Module constant UI_TYPE_CHAT. -/
def UI_TYPE_CHAT : String := "chat"

/-- Module constant UI_TYPE_TABBED. -/
def UI_TYPE_TABBED : String := "tabbed_dashboard"

/-- The platform configuration consumed by TestStepGenerator. The script
reads every entry through dict.get with a compiled-in default, so a run
always resolves each field to a definite value; the structure holds those
resolved values. -/
structure PlatformConfig where
  login_base_url_default : String
  login_steps : List String
  login_email : String
  login_password : String
  post_login_wait_react_sec : Nat
  post_login_wait_streamlit_sec : Nat
  tenant_switching_steps : List String
  tenant_search_input_label : String
  react_wait_sec : Nat
  streamlit_initial_wait_sec : Nat
  streamlit_launching_wait_sec : Nat
  streamlit_final_wait_sec : Nat
  use_relaunch_conditional : Bool
  error_verify_react : String
  error_verify_streamlit : String
  tab_click_react_sec : Nat
  tab_click_streamlit_sec : Nat
  chat_entry_sec : Nat
  ask_ai_react_sec : Nat
  ask_ai_streamlit_sec : Nat
  comprehensive_scroll_sec : Nat

/-- The module-level _DEFAULT_PLATFORM_CONFIG constant. -/
def defaultPlatformConfig : PlatformConfig where
  login_base_url_default := "https://app.rapidcanvas.ai"
  login_steps := ["Open {base_url}/", "Enter {email} in email", "Click Next",
    "Enter {password} in Password", "Click Sign In", "Verify Dashboard"]
  login_email := "testAutomation@gmail.com"
  login_password := "testAutomation03@"
  post_login_wait_react_sec := 10
  post_login_wait_streamlit_sec := 2
  tenant_switching_steps := [
    "Wait 2sec",
    "Click on xpath=//*[@data-testid=\"top-nav-bar-workspace-menu\"]",
    "Wait 5sec",
    "Click on xpath=//*[@data-testid=\"workspace-menu-tenant-name\"]",
    "Wait 5sec",
    "Enter {tenant_search_term} in {tenant_search_input_label}",
    "Wait 5sec",
    "Click on xpath=//*[@test-id=\"tenant-menu-tenant-list-items\"]/li[1]",
    "Wait 10sec"]
  tenant_search_input_label := "Type to search with AI"
  react_wait_sec := 280
  streamlit_initial_wait_sec := 50
  streamlit_launching_wait_sec := 150
  streamlit_final_wait_sec := 100
  use_relaunch_conditional := true
  error_verify_react := "Verify no error messages or exceptions are displayed with AI"
  error_verify_streamlit := "Verify no error messages or exceptions are displayed on UI with AI"
  tab_click_react_sec := 30
  tab_click_streamlit_sec := 20
  chat_entry_sec := 5
  ask_ai_react_sec := 60
  ask_ai_streamlit_sec := 100
  comprehensive_scroll_sec := 5

/-- Chat-paradigm entry points: the dict returned by
DataAppAnalyzer.extract_chat_entry_points, with the sidebar and main buckets
resolved (a missing bucket reads as the empty list through dict.get-or-[]). -/
structure EntryPoints where
  sidebar : List String
  main : List String
deriving DecidableEq

/-- The ui_graph dict built by DataAppAnalyzer.analyze and consumed by
TestStepGenerator.generate. entry_points = none models every value that is
falsy in Python at the consuming site (key absent, None, or an empty dict);
some ep models a truthy dict with its sidebar and main buckets resolved. -/
structure UIGraph where
  ui_type : String
  entry_points : Option EntryPoints
  navigation_items : List String
  tab_elements : List (String × List String)
deriving DecidableEq

/-- The TestStepGenerator object after __init__: the stored constructor
arguments. tenant_name = none models the Python argument None; some t models
a provided string (possibly empty, which Python treats as falsy).
tab_elements is the per-tab element inventory as an association list keyed by
upper-cased tab name (a Python dict with string keys). -/
structure TestStepGenerator where
  app_type : String
  app_url : String
  tenant_name : Option String
  description : String
  tab_elements : List (String × List String)
  ui_type : String
  ui_graph : UIGraph
  config : PlatformConfig

/-- Python dict.get(key, []) over the association-list model of a dict. -/
def dictGetList (d : List (String × List String)) (key : String) : List String :=
  match d.find? (fun p => p.1 = key) with
  | some p => p.2
  | none => []

/-- TestStepGenerator._verify_step. -/
def verifyStepText (g : TestStepGenerator) : String :=
  if g.app_type = "react" then g.config.error_verify_react
  else g.config.error_verify_streamlit

/-- The comprehensive_keywords list of _should_use_comprehensive_mode. -/
def comprehensiveKeywords : List String :=
  ["dropdown", "button", "modal", "clickable", "entry point",
   "interactive", "element", "comprehensive", "all", "each", "every"]

/-- TestStepGenerator._should_use_comprehensive_mode: the description is
lower-cased and tested for substring containment of each keyword; an empty
description is falsy and yields false. -/
def shouldUseComprehensiveMode (description : String) : Bool :=
  if description = "" then false
  else comprehensiveKeywords.any (fun k => pyContains (pyLower description) k)

/-- The comprehensive_mode attribute computed once in __init__. -/
def comprehensiveMode (g : TestStepGenerator) : Bool :=
  shouldUseComprehensiveMode g.description

/-!
DataAppAnalyzer. The regex scans that collect raw evidence from the source
tree are file-system walks over arbitrary text; their outputs (the appended
indicator kind names, raw navigation strings, and raw entry-point labels) are
taken here as inputs, and the decision and post-processing logic applied to
them — which is what the claims are about — is embedded exactly.
-/

/-- The decision tail of DataAppAnalyzer.detect_ui_type. chat_indicators and
tabbed_indicators are the lists of indicator kind names appended during the
scan; the scores are the distinct-kind counts len(set(...)). -/
def detectUiTypeFromIndicators (chat_indicators tabbed_indicators : List String) : String :=
  let chat_score := chat_indicators.dedup.length
  let tabbed_score := tabbed_indicators.dedup.length
  if chat_score ≥ 2 ∧ tabbed_score ≤ 1 then UI_TYPE_CHAT
  else if tabbed_score ≥ 1 then UI_TYPE_TABBED
  else if chat_score ≥ 1 then UI_TYPE_CHAT
  else UI_TYPE_TABBED

/-- The local normalize_nav_item function of DataAppAnalyzer.extract_navigation:
strip whitespace, strip slashes at both ends, take the last path segment when
a slash remains, replace hyphens and underscores by spaces, strip again. -/
def normalize_nav_item (item : String) : String :=
  let item := pyStripSlashes (pyStrip item)
  let item := if pyStartsWith item "/" then ⟨item.data.drop 1⟩ else item
  let item := if pyContains item "/" then pyLastSlashSegment item else item
  pyStrip (pyReplace (pyReplace item "-" " ") "_" " ")

/-- Python list(dict.fromkeys(l)): drop duplicates keeping the first
occurrence. The second argument accumulates the keys already seen. -/
def dedupKeepFirstAux : List String → List String → List String
  | [], _ => []
  | x :: xs, seen =>
    if x ∈ seen then dedupKeepFirstAux xs seen
    else x :: dedupKeepFirstAux xs (x :: seen)

/-- Python list(dict.fromkeys(l)). -/
def dedupKeepFirst (l : List String) : List String := dedupKeepFirstAux l []

/-- Reference first-seen deduplication, stated the way the spec words it:
keep the first occurrence of each value and drop every later duplicate. The
theorems below prove that the seen-set dict.fromkeys embedding equals this
reference, which is what preserving first-seen insertion order means. -/
def firstSeenDedup : List String → List String
  | [] => []
  | x :: xs => x :: firstSeenDedup (xs.filter (fun y => y ≠ x))
  termination_by l => l.length
  decreasing_by
    simp only [List.length_cons]
    exact Nat.lt_succ_of_le (List.length_filter_le _ _)

/-- The reserved low-signal tokens dropped by extract_navigation. -/
def reservedNavTokens : List String := ["", "/", "askai", "ask-ai"]

/-- The post-processing tail of DataAppAnalyzer.extract_navigation, applied to
the raw strings collected by the regex scans: keep truthy raw items, normalize
each, deduplicate preserving first-seen order, then drop items whose
lower-case form is a reserved token. -/
def extractNavigationPost (navRaw : List String) : List String :=
  let nav_items := (navRaw.filter (fun item => item ≠ "")).map normalize_nav_item
  let nav_items := dedupKeepFirst nav_items
  nav_items.filter (fun item => !(reservedNavTokens.contains (pyLower item)))

/-- The assembly tail of DataAppAnalyzer.extract_chat_entry_points: the raw
sidebar and main label lists collected by the scan are deduplicated keeping
first-seen order, and the send-message action is appended to main when it was
not textually evidenced. -/
def extractChatEntryPoints (sidebarRaw mainRaw : List String) : EntryPoints :=
  let sidebar := dedupKeepFirst sidebarRaw
  let main := dedupKeepFirst mainRaw
  { sidebar := sidebar
    main := if "Send message" ∈ main then main else main ++ ["Send message"] }

/-- The ui_graph construction of DataAppAnalyzer.analyze, parameterized by the
scan outputs: the indicator lists that drive detect_ui_type, the raw chat
entry-point labels, the raw navigation strings, and the per-tab element
inventory produced by analyze_tab_elements. -/
def analyzeGraph (chatInd tabbedInd sidebarRaw mainRaw navRaw : List String)
    (tabEls : List (String × List String)) : UIGraph :=
  let uiType := detectUiTypeFromIndicators chatInd tabbedInd
  let navigation := extractNavigationPost navRaw
  if uiType = UI_TYPE_CHAT then
    { ui_type := UI_TYPE_CHAT
      entry_points := some (extractChatEntryPoints sidebarRaw mainRaw)
      navigation_items := []
      tab_elements := [] }
  else
    { ui_type := UI_TYPE_TABBED
      entry_points := none
      navigation_items := navigation
      tab_elements := tabEls }

/-!
TestStepGenerator: the step-composition methods. Every method of the Python
class only appends to the mutable self.steps list, so each one is embedded as
a function from the accumulated step list to the extended step list; the
declarative per-method segments are defined alongside and related to the
imperative forms by the lemmas further below.
-/

/-- The wait suffix of a Python f-string "Wait {n}sec". -/
def waitStep (n : Nat) : String := "Wait " ++ toString n ++ "sec"

/-- The base URL used by add_login_steps: everything before "/apps" when that
marker occurs in the app URL, the configured default otherwise. -/
def loginBaseUrl (g : TestStepGenerator) : String :=
  if pyContains g.app_url "/apps" then pyBeforeFirst g.app_url "/apps"
  else g.config.login_base_url_default

/-- One login template instantiated by str.format with base_url, email and
password. -/
def formatLoginStep (t base_url email password : String) : String :=
  pyReplace (pyReplace (pyReplace t "{base_url}" base_url) "{email}" email)
    "{password}" password

/-- The family-specific post-login wait of add_login_steps. -/
def postLoginWaitSec (g : TestStepGenerator) : Nat :=
  if g.app_type = "react" then g.config.post_login_wait_react_sec
  else g.config.post_login_wait_streamlit_sec

/-- The steps appended by add_login_steps: the configured login templates
instantiated, then the family-specific post-login wait. -/
def loginSeg (g : TestStepGenerator) : List String :=
  g.config.login_steps.map
    (fun t => formatLoginStep t (loginBaseUrl g) g.config.login_email g.config.login_password)
  ++ [waitStep (postLoginWaitSec g)]

/-- TestStepGenerator.add_login_steps. -/
def addLoginSteps (g : TestStepGenerator) (steps : List String) : List String :=
  let steps := steps ++ g.config.login_steps.map
    (fun t => formatLoginStep t (loginBaseUrl g) g.config.login_email g.config.login_password)
  steps ++ [waitStep (postLoginWaitSec g)]

/-- The tenant-switching templates instantiated with the stripped tenant
search term and the configured search-field label, independent of the
truthiness gate of add_tenant_switching_steps. -/
def tenantStepsFormatted (g : TestStepGenerator) : List String :=
  g.config.tenant_switching_steps.map
    (fun t => pyReplace (pyReplace t "{tenant_search_term}" (pyStrip (g.tenant_name.getD "")))
      "{tenant_search_input_label}" g.config.tenant_search_input_label)

/-- The steps appended by add_tenant_switching_steps: nothing when the stored
tenant name is falsy (None or the empty string), the instantiated templates
otherwise. -/
def tenantSeg (g : TestStepGenerator) : List String :=
  match g.tenant_name with
  | none => []
  | some t => if t = "" then [] else tenantStepsFormatted g

/-- TestStepGenerator.add_tenant_switching_steps. -/
def addTenantSwitchingSteps (g : TestStepGenerator) (steps : List String) : List String :=
  match g.tenant_name with
  | none => steps
  | some t => if t = "" then steps else steps ++ tenantStepsFormatted g

/-- The steps appended by add_app_launch_steps: open the app URL, then the
family-specific launch waits, with the streamlit relaunch conditionals when
configured. -/
def launchSeg (g : TestStepGenerator) : List String :=
  ["Open " ++ g.app_url] ++
  (if g.app_type = "react" then [waitStep g.config.react_wait_sec]
   else
     [waitStep g.config.streamlit_initial_wait_sec] ++
     (if g.config.use_relaunch_conditional then
        ["If(text=Relaunch) then Click on Relaunch",
         "If(text=Launching) then wait " ++ toString g.config.streamlit_launching_wait_sec ++ "sec"]
      else []) ++
     [waitStep g.config.streamlit_final_wait_sec])

/-- TestStepGenerator.add_app_launch_steps. -/
def addAppLaunchSteps (g : TestStepGenerator) (steps : List String) : List String :=
  let steps := steps ++ ["Open " ++ g.app_url]
  if g.app_type = "react" then
    steps ++ [waitStep g.config.react_wait_sec]
  else
    let steps := steps ++ [waitStep g.config.streamlit_initial_wait_sec]
    let steps := if g.config.use_relaunch_conditional then
        steps ++ ["If(text=Relaunch) then Click on Relaunch",
          "If(text=Launching) then wait " ++ toString g.config.streamlit_launching_wait_sec ++ "sec"]
      else steps
    steps ++ [waitStep g.config.streamlit_final_wait_sec]

/-- The family-specific tab-click wait. -/
def tabClickSec (g : TestStepGenerator) : Nat :=
  if g.app_type = "react" then g.config.tab_click_react_sec
  else g.config.tab_click_streamlit_sec

/-- The per-item cleanup at the top of the add_navigation_steps loop body. -/
def cleanNavStepItem (item : String) : String :=
  if pyStartsWith (pyStrip item) "/" = true ∧ pyContains (pyStrip item) "/" = true then
    let item_clean := pyStrip (pyReplace (pyReplace (pyStripSlashes (pyStrip item)) "-" " ") "_" " ")
    if pyContains item_clean "/" then pyLastSlashSegment item_clean else item_clean
  else
    pyStrip (pyReplace (pyReplace item "-" " ") "_" " ")

/-- The normalized label of one raw item in the add_navigation_steps loop:
the cleaned item upper-cased, with the ASKAI and ASK-AI spellings mapped to
ASK AI. -/
def normalizedNavLabel (item : String) : String :=
  let item_normalized := pyUpper (cleanNavStepItem item)
  if item_normalized = "ASKAI" ∨ item_normalized = "ASK-AI" then "ASK AI"
  else item_normalized

/-- The deduplication loop of add_navigation_steps: clean each raw item, skip
the falsy ones, normalize the label, and keep the first occurrence of each
normalized label. The second argument is the seen set. -/
def uniqueNavItemsAux : List String → List String → List String
  | [], _ => []
  | item :: rest, seen =>
    let item_clean := cleanNavStepItem item
    if item_clean = "" then uniqueNavItemsAux rest seen
    else
      let item_normalized := normalizedNavLabel item
      if item_normalized ∈ seen then uniqueNavItemsAux rest seen
      else item_normalized :: uniqueNavItemsAux rest (item_normalized :: seen)

/-- The unique_items list of add_navigation_steps. -/
def uniqueNavItems (nav : List String) : List String := uniqueNavItemsAux nav []

/-- The canonical tab precedence dict of add_navigation_steps, with the 99
default of order.get(x, 99). -/
def navOrderRank (x : String) : Nat :=
  if x = "OVERVIEW" then 1
  else if x = "SCHEDULE" then 2
  else if x = "ASK AI" then 3
  else 99

/-- The sort-key comparison of add_navigation_steps: the Python tuple key
(order.get(x, 99), x) compared lexicographically. -/
def navLeB (a b : String) : Bool :=
  decide (navOrderRank a < navOrderRank b) ||
    (decide (navOrderRank a = navOrderRank b) && pyStrLe a b)

/-- The sort-key comparison as a relation. -/
def navRel (a b : String) : Prop := navLeB a b = true

instance : DecidableRel navRel := fun a b => instDecidableEqBool (navLeB a b) true

/-- The in-place unique_items.sort(key=...) of add_navigation_steps. The key
tuples of distinct upper-cased labels are distinct and totally ordered, so
the stably sorted list is the unique navRel-sorted permutation; insertion
sort computes it. -/
def sortNavItems (l : List String) : List String := List.insertionSort navRel l

/-- The per-tab detected element inventory self.tab_elements.get(tab.upper(), []). -/
def detectedElementsFor (g : TestStepGenerator) (tab_name : String) : List String :=
  dictGetList g.tab_elements (pyUpper tab_name)

/-- The paradigm-agnostic scroll probing pair emitted at the top of
add_comprehensive_steps_for_tab. -/
def scrollProbeBlock (g : TestStepGenerator) : List String :=
  ["Scroll down with AI", waitStep g.config.comprehensive_scroll_sec, verifyStepText g,
   "Scroll up with AI", waitStep g.config.comprehensive_scroll_sec, verifyStepText g]

/-- The element_to_step dict of add_comprehensive_steps_for_tab, in its
insertion order: detected tag, click target, wait literal. -/
def elementToStep : List (String × String × String) :=
  [("Edit Mode button", "Edit Mode", "10sec"),
   ("View Only Mode button", "View Only Mode", "10sec"),
   ("Filter button", "Filter", "5sec"),
   ("Changeovers stat box", "Changeovers", "5sec"),
   ("Save button", "Save", "10sec"),
   ("Reset button", "Reset", "10sec"),
   ("Finalize button", "Finalize", "10sec")]

/-- The three steps emitted for one detected element_to_step entry: the
visibility-conditional click (with the button and stat box suffixes removed
from the visibility check), the wait, and the error verification. -/
def elementProbeBlock (g : TestStepGenerator) (e : String × String × String) : List String :=
  ["If(" ++ pyReplace (pyReplace e.1 " button" "") " stat box" "" ++
     " visible) then Click on " ++ e.2.1 ++ " with AI",
   "Wait " ++ e.2.2,
   verifyStepText g]

/-- One element-conditional probe family of add_comprehensive_steps_for_tab:
the element tags that trigger it, and the steps it emits. -/
structure ProbeRule where
  tags : List String
  block : TestStepGenerator → List String

/-- The element-conditional probe families of add_comprehensive_steps_for_tab
in emission order: the element_to_step expansions, then the modal-dismissal,
dropdown, Gantt-interaction, queue and carousel conditionals, each keyed to
the element tags whose detection triggers it. -/
def compProbeRules : List ProbeRule :=
  elementToStep.map (fun e => ⟨[e.1], fun g => elementProbeBlock g e⟩) ++
  [⟨["Filter button"], fun g =>
     ["If(Filter modal visible) then Click on Close in Filter modal with AI",
      waitStep g.config.comprehensive_scroll_sec, verifyStepText g]⟩,
   ⟨["Changeovers stat box"], fun g =>
     ["If(Changeover modal visible) then Click on Close in Changeover modal with AI",
      waitStep g.config.comprehensive_scroll_sec, verifyStepText g]⟩,
   ⟨["Gantt chart", "scheduled MO block"], fun g =>
     ["If(MO Details Panel visible) then Click on Close in MO Details Panel with AI",
      waitStep g.config.comprehensive_scroll_sec, verifyStepText g]⟩,
   ⟨["dropdown"], fun g =>
     ["If(dropdown visible) then Click on dropdown with AI",
      waitStep g.config.comprehensive_scroll_sec, verifyStepText g,
      "If(dropdown option visible) then Click on first option in dropdown with AI",
      waitStep g.config.comprehensive_scroll_sec, verifyStepText g]⟩,
   ⟨["Gantt chart", "scheduled MO block"], fun g =>
     ["If(any scheduled MO block visible in Gantt chart) then Click on any scheduled MO block in Gantt chart with AI",
      waitStep g.config.comprehensive_scroll_sec, verifyStepText g,
      "If(MO Details Panel visible) then Click on Close in MO Details Panel with AI",
      waitStep g.config.comprehensive_scroll_sec, verifyStepText g]⟩,
   ⟨["Queue Panel"], fun g =>
     ["If(Queue Panel visible) then Scroll down in Queue Panel with AI",
      waitStep g.config.comprehensive_scroll_sec, verifyStepText g,
      "If(Queue Panel visible) then Scroll up in Queue Panel with AI",
      waitStep g.config.comprehensive_scroll_sec, verifyStepText g]⟩,
   ⟨["Carousel next button", "Carousel previous button"], fun g =>
     ["If(Carousel next visible) then Click on Carousel next with AI",
      waitStep g.config.comprehensive_scroll_sec, verifyStepText g,
      "If(Carousel previous visible) then Click on Carousel previous with AI",
      waitStep g.config.comprehensive_scroll_sec, verifyStepText g]⟩]

/-- The steps appended by add_comprehensive_steps_for_tab for one tab: the
scroll probes, then each probe family whose tags intersect the detected
inventory of the tab. -/
def compSeg (g : TestStepGenerator) (tab_name : String) : List String :=
  scrollProbeBlock g ++
  compProbeRules.flatMap (fun r =>
    if ∃ t ∈ r.tags, t ∈ detectedElementsFor g tab_name then r.block g else [])

/-- TestStepGenerator.add_comprehensive_steps_for_tab, statement by statement. -/
def addComprehensiveStepsForTab (g : TestStepGenerator) (tab_name : String)
    (steps : List String) : List String :=
  let detected := detectedElementsFor g tab_name
  let error_verify := verifyStepText g
  let scroll_sec := g.config.comprehensive_scroll_sec
  let steps := steps ++
    ["Scroll down with AI", waitStep scroll_sec, error_verify,
     "Scroll up with AI", waitStep scroll_sec, error_verify]
  let steps := steps ++ elementToStep.flatMap (fun e =>
    if e.1 ∈ detected then elementProbeBlock g e else [])
  let steps := if "Filter button" ∈ detected then
      steps ++ ["If(Filter modal visible) then Click on Close in Filter modal with AI",
        waitStep scroll_sec, error_verify]
    else steps
  let steps := if "Changeovers stat box" ∈ detected then
      steps ++ ["If(Changeover modal visible) then Click on Close in Changeover modal with AI",
        waitStep scroll_sec, error_verify]
    else steps
  let steps := if "Gantt chart" ∈ detected ∨ "scheduled MO block" ∈ detected then
      steps ++ ["If(MO Details Panel visible) then Click on Close in MO Details Panel with AI",
        waitStep scroll_sec, error_verify]
    else steps
  let steps := if "dropdown" ∈ detected then
      steps ++ ["If(dropdown visible) then Click on dropdown with AI",
        waitStep scroll_sec, error_verify,
        "If(dropdown option visible) then Click on first option in dropdown with AI",
        waitStep scroll_sec, error_verify]
    else steps
  let steps := if "Gantt chart" ∈ detected ∨ "scheduled MO block" ∈ detected then
      steps ++ ["If(any scheduled MO block visible in Gantt chart) then Click on any scheduled MO block in Gantt chart with AI",
        waitStep scroll_sec, error_verify,
        "If(MO Details Panel visible) then Click on Close in MO Details Panel with AI",
        waitStep scroll_sec, error_verify]
    else steps
  let steps := if "Queue Panel" ∈ detected then
      steps ++ ["If(Queue Panel visible) then Scroll down in Queue Panel with AI",
        waitStep scroll_sec, error_verify,
        "If(Queue Panel visible) then Scroll up in Queue Panel with AI",
        waitStep scroll_sec, error_verify]
    else steps
  if "Carousel next button" ∈ detected ∨ "Carousel previous button" ∈ detected then
    steps ++ ["If(Carousel next visible) then Click on Carousel next with AI",
      waitStep scroll_sec, error_verify,
      "If(Carousel previous visible) then Click on Carousel previous with AI",
      waitStep scroll_sec, error_verify]
  else steps

/-- The verify-wait-verify fallback emitted by add_navigation_steps when no
unique navigation item survives. -/
def degradeBlock (g : TestStepGenerator) : List String :=
  ["Verify application loaded with AI", waitStep (tabClickSec g), verifyStepText g]

/-- The steps emitted per sorted navigation item: click, wait, verify, then
the comprehensive expansion when comprehensive mode is on. -/
def navStepBlock (g : TestStepGenerator) (item : String) : List String :=
  ["Click on " ++ item ++ " with AI", waitStep (tabClickSec g), verifyStepText g] ++
  (if comprehensiveMode g then compSeg g item else [])

/-- The steps appended by add_navigation_steps. -/
def navigationSeg (g : TestStepGenerator) (nav : List String) : List String :=
  if uniqueNavItems nav = [] then degradeBlock g
  else (sortNavItems (uniqueNavItems nav)).flatMap (navStepBlock g)

/-- TestStepGenerator.add_navigation_steps: deduplicate and normalize, emit
the fallback when nothing survives, otherwise sort canonically and loop. -/
def addNavigationSteps (g : TestStepGenerator) (nav : List String)
    (steps : List String) : List String :=
  let unique_items := uniqueNavItems nav
  if unique_items = [] then
    steps ++ ["Verify application loaded with AI", waitStep (tabClickSec g), verifyStepText g]
  else
    (sortNavItems unique_items).foldl (fun steps item =>
      let steps := steps ++
        ["Click on " ++ item ++ " with AI", waitStep (tabClickSec g), verifyStepText g]
      if comprehensiveMode g then addComprehensiveStepsForTab g item steps else steps)
      steps

/-- The steps appended by add_chat_ui_steps for a chat entry-point dict. -/
def chatSeg (g : TestStepGenerator) (ep : EntryPoints) : List String :=
  ["Verify application loaded with AI", waitStep (tabClickSec g), verifyStepText g] ++
  ep.sidebar.flatMap (fun label =>
    if label ≠ "" ∧ label ≠ "CHATS" then
      ["Click on " ++ label ++ " with AI", waitStep g.config.chat_entry_sec, verifyStepText g]
    else []) ++
  (if "CHATS" ∈ ep.sidebar then
     ["If(chat item visible in CHATS) then Click on first chat item in CHATS with AI",
      waitStep g.config.chat_entry_sec, verifyStepText g]
   else []) ++
  ep.main.flatMap (fun label =>
    if label = "" ∨ label = "Send message" then []
    else if label = "best practices link" then
      ["If(best practices link visible) then Click on best practices link with AI",
       waitStep g.config.chat_entry_sec, verifyStepText g]
    else
      ["Click on " ++ label ++ " with AI", waitStep g.config.chat_entry_sec, verifyStepText g]) ++
  ["Enter hello in chat input with AI", waitStep g.config.chat_entry_sec,
   "Click on Send message with AI", waitStep (tabClickSec g), verifyStepText g] ++
  ["Scroll down with AI", waitStep g.config.comprehensive_scroll_sec, verifyStepText g,
   "Scroll up with AI", waitStep g.config.comprehensive_scroll_sec, verifyStepText g]

/-- TestStepGenerator.add_chat_ui_steps, statement by statement. -/
def addChatUiSteps (g : TestStepGenerator) (ep : EntryPoints)
    (steps : List String) : List String :=
  let steps := steps ++
    ["Verify application loaded with AI", waitStep (tabClickSec g), verifyStepText g]
  let steps := steps ++ ep.sidebar.flatMap (fun label =>
    if label ≠ "" ∧ label ≠ "CHATS" then
      ["Click on " ++ label ++ " with AI", waitStep g.config.chat_entry_sec, verifyStepText g]
    else [])
  let steps := if "CHATS" ∈ ep.sidebar then
      steps ++ ["If(chat item visible in CHATS) then Click on first chat item in CHATS with AI",
        waitStep g.config.chat_entry_sec, verifyStepText g]
    else steps
  let steps := steps ++ ep.main.flatMap (fun label =>
    if label = "" ∨ label = "Send message" then []
    else if label = "best practices link" then
      ["If(best practices link visible) then Click on best practices link with AI",
       waitStep g.config.chat_entry_sec, verifyStepText g]
    else
      ["Click on " ++ label ++ " with AI", waitStep g.config.chat_entry_sec, verifyStepText g])
  let steps := steps ++
    ["Enter hello in chat input with AI", waitStep g.config.chat_entry_sec,
     "Click on Send message with AI", waitStep (tabClickSec g), verifyStepText g]
  steps ++
    ["Scroll down with AI", waitStep g.config.comprehensive_scroll_sec, verifyStepText g,
     "Scroll up with AI", waitStep g.config.comprehensive_scroll_sec, verifyStepText g]

/-- The Ask AI label variants scanned for by add_ask_ai_steps, lower-cased as
the scan lower-cases them. -/
def askAiVariantsLower : List String := ["ask ai", "askai", "ask-ai", "ask ai", "askai"]

/-- The textual Ask AI scan of add_ask_ai_steps: join every emitted step with
single spaces, lower-case, and look for any variant as a substring. -/
def hasAskAiText (steps : List String) : Bool :=
  askAiVariantsLower.any (fun v => pyContains (pyLower (pyJoin steps)) v)

/-- The Ask AI round trip appended when the scan fires. -/
def askAiBlock (g : TestStepGenerator) : List String :=
  ["Enter hello in Ask AI with AI", waitStep g.config.chat_entry_sec,
   "Click on Send message with AI",
   waitStep (if g.app_type = "react" then g.config.ask_ai_react_sec
             else g.config.ask_ai_streamlit_sec),
   verifyStepText g]

/-- The steps appended by add_ask_ai_steps given the steps emitted so far. -/
def askAiSeg (g : TestStepGenerator) (steps : List String) : List String :=
  if hasAskAiText steps then askAiBlock g else []

/-- TestStepGenerator.add_ask_ai_steps. -/
def addAskAiSteps (g : TestStepGenerator) (steps : List String) : List String :=
  if hasAskAiText steps then steps ++ askAiBlock g else steps

/-- TestStepGenerator.add_final_verification. -/
def addFinalVerification (g : TestStepGenerator) (steps : List String) : List String :=
  steps ++ [verifyStepText g]

/-- The navigation-item resolution at the top of the tabbed branch of
generate: the call argument when truthy, else the graph value, else the empty
list (the graph field already models the falsy-to-empty collapse). -/
def resolveNavArg (navArg : Option (List String)) (g : TestStepGenerator) : List String :=
  match navArg with
  | some l => if l = [] then g.ui_graph.navigation_items else l
  | none => g.ui_graph.navigation_items

/-- TestStepGenerator.generate acting on the mutable self.steps list: the
argument steps is the list accumulated before the call and the result is the
list after it. The branch condition is the Python conjunction of the chat
ui_type test and the truthiness of ui_graph entry_points. -/
def generateStepsFrom (g : TestStepGenerator) (navArg : Option (List String))
    (steps : List String) : List String :=
  let steps := addLoginSteps g steps
  let steps := addTenantSwitchingSteps g steps
  let steps := addAppLaunchSteps g steps
  let steps :=
    match (if g.ui_type = UI_TYPE_CHAT then g.ui_graph.entry_points else none) with
    | some ep => addChatUiSteps g ep steps
    | none => addAskAiSteps g (addNavigationSteps g (resolveNavArg navArg g) steps)
  addFinalVerification g steps

/-- The step list produced by a generate call on a freshly constructed
generator (self.steps starts empty). -/
def genSteps (g : TestStepGenerator) (navArg : Option (List String)) : List String :=
  generateStepsFrom g navArg []

/-- The string returned by generate from a given accumulated state: the step
list joined with single spaces. -/
def generateOutputFrom (g : TestStepGenerator) (navArg : Option (List String))
    (steps : List String) : String :=
  pyJoin (generateStepsFrom g navArg steps)

/-- The string returned by the first generate call on a fresh generator. -/
def generate (g : TestStepGenerator) (navArg : Option (List String)) : String :=
  pyJoin (genSteps g navArg)

/-- The steps accumulated before the paradigm branch of generate runs: login,
tenant switching, launch. -/
def preParadigmSteps (g : TestStepGenerator) : List String :=
  loginSeg g ++ tenantSeg g ++ launchSeg g

/-- The paradigm-specific portion of a fresh generate call: the chat segment
when the chat branch is taken, otherwise the navigation segment followed by
whatever the post-hoc Ask AI scan appends given everything emitted so far. -/
def paradigmSeg (g : TestStepGenerator) (navArg : Option (List String)) : List String :=
  match (if g.ui_type = UI_TYPE_CHAT then g.ui_graph.entry_points else none) with
  | some ep => chatSeg g ep
  | none =>
    let nav := resolveNavArg navArg g
    navigationSeg g nav ++ askAiSeg g (preParadigmSteps g ++ navigationSeg g nav)

/-- The order used for the unmatched alphabetical tail of the canonical tab
ordering: plain per-code-point string comparison. -/
def alphaRel (a b : String) : Prop := pyStrLe a b = true

instance : DecidableRel alphaRel := fun a b => instDecidableEqBool (pyStrLe a b) true

/-- The canonically named tabs of the order dict of add_navigation_steps. -/
def canonNavNames : List String := ["OVERVIEW", "SCHEDULE", "ASK AI"]

/-- Test for a label that is not one of the canonically named tabs. -/
def notCanon (x : String) : Bool := !(canonNavNames.contains x)

/-!
Concrete fixtures for the evaluation theorems: a minimal platform
configuration (small strings and zero waits keep kernel evaluation cheap)
and a family of concrete generator states.
-/

/-- A minimal platform configuration for concrete evaluation. -/
def cfgSmall : PlatformConfig where
  login_base_url_default := ""
  login_steps := []
  login_email := ""
  login_password := ""
  post_login_wait_react_sec := 0
  post_login_wait_streamlit_sec := 0
  tenant_switching_steps := ["Enter {tenant_search_term} in {tenant_search_input_label}"]
  tenant_search_input_label := "L"
  react_wait_sec := 0
  streamlit_initial_wait_sec := 0
  streamlit_launching_wait_sec := 0
  streamlit_final_wait_sec := 0
  use_relaunch_conditional := true
  error_verify_react := "E"
  error_verify_streamlit := "F"
  tab_click_react_sec := 0
  tab_click_streamlit_sec := 0
  chat_entry_sec := 0
  ask_ai_react_sec := 0
  ask_ai_streamlit_sec := 0
  comprehensive_scroll_sec := 0

/-- A react tabbed generator with an empty navigation graph and no tenant. -/
def genFresh : TestStepGenerator where
  app_type := "react"
  app_url := "u"
  tenant_name := none
  description := ""
  tab_elements := []
  ui_type := UI_TYPE_TABBED
  ui_graph := ⟨UI_TYPE_TABBED, none, [], []⟩
  config := cfgSmall

/-- genFresh with an empty-string tenant name supplied. -/
def genTenantEmptyName : TestStepGenerator := { genFresh with tenant_name := some "" }

/-- genFresh with a non-empty tenant name supplied. -/
def genTenantNamed : TestStepGenerator := { genFresh with tenant_name := some "Acme" }

/-- genFresh with the chat ui_type but no truthy entry_points in the graph. -/
def genChatNoEntry : TestStepGenerator := { genFresh with ui_type := UI_TYPE_CHAT }

/-- genFresh with an app URL whose path mentions AskAI, as DataApp URLs of an
Ask AI app do. -/
def genAskAiUrl : TestStepGenerator := { genFresh with app_url := "x/apps/AskAI/T" }

/-- genFresh with raw navigation items overview, schedule and billing in the
graph. -/
def genThreeTabs : TestStepGenerator :=
  { genFresh with ui_graph := ⟨UI_TYPE_TABBED, none, ["billing", "overview", "schedule"], []⟩ }

/-- A comprehensive-mode generator (the description contains the keyword
every) whose TAB1 inventory holds exactly a dropdown. -/
def genComp : TestStepGenerator :=
  { genFresh with description := "every", tab_elements := [("TAB1", ["dropdown"])] }

/-!
Structural lemmas: each imperative method only appends, so it equals the
input state followed by its declarative segment.
-/

lemma ite_append_eq (c : Prop) [Decidable c] (s B : List String) :
    (if c then s ++ B else s) = s ++ (if c then B else []) := by
  split <;> simp

lemma addLoginSteps_eq (g : TestStepGenerator) (s : List String) :
    addLoginSteps g s = s ++ loginSeg g := by
  simp [addLoginSteps, loginSeg]

lemma addTenantSwitchingSteps_eq (g : TestStepGenerator) (s : List String) :
    addTenantSwitchingSteps g s = s ++ tenantSeg g := by
  unfold addTenantSwitchingSteps tenantSeg
  cases g.tenant_name with
  | none => simp
  | some t => by_cases ht : t = "" <;> simp [ht]

lemma addAppLaunchSteps_eq (g : TestStepGenerator) (s : List String) :
    addAppLaunchSteps g s = s ++ launchSeg g := by
  unfold addAppLaunchSteps launchSeg
  by_cases ha : g.app_type = "react"
  · simp [ha]
  · by_cases hr : g.config.use_relaunch_conditional <;> simp [ha, hr]

lemma addComprehensiveStepsForTab_eq (g : TestStepGenerator) (tab : String)
    (s : List String) : addComprehensiveStepsForTab g tab s = s ++ compSeg g tab := by
  unfold addComprehensiveStepsForTab compSeg
  simp only [ite_append_eq]
  simp only [compProbeRules, List.map_cons, List.map_nil, elementToStep, scrollProbeBlock,
    List.flatMap_cons, List.flatMap_nil, List.flatMap_append, List.mem_cons,
    List.mem_singleton, List.not_mem_nil, exists_eq_left, exists_eq_or_imp, or_false,
    false_or, exists_false, List.append_nil, List.append_assoc]

lemma addNavigationSteps_loop (g : TestStepGenerator) (l : List String) :
    ∀ s : List String,
      l.foldl (fun steps item =>
        let steps := steps ++
          ["Click on " ++ item ++ " with AI", waitStep (tabClickSec g), verifyStepText g]
        if comprehensiveMode g then addComprehensiveStepsForTab g item steps else steps) s
      = s ++ l.flatMap (navStepBlock g) := by
  induction l with
  | nil => intro s; simp
  | cons a l ih =>
    intro s
    simp only [List.foldl_cons, List.flatMap_cons]
    rw [ih]
    by_cases hc : comprehensiveMode g
    · simp [hc, addComprehensiveStepsForTab_eq, navStepBlock]
    · simp [hc, navStepBlock]

lemma addNavigationSteps_eq (g : TestStepGenerator) (nav : List String)
    (s : List String) : addNavigationSteps g nav s = s ++ navigationSeg g nav := by
  unfold addNavigationSteps navigationSeg
  by_cases hn : uniqueNavItems nav = []
  · simp [hn, degradeBlock]
  · simp only [if_neg hn]
    exact addNavigationSteps_loop g _ s

lemma addChatUiSteps_eq (g : TestStepGenerator) (ep : EntryPoints)
    (s : List String) : addChatUiSteps g ep s = s ++ chatSeg g ep := by
  unfold addChatUiSteps chatSeg
  simp only [ite_append_eq]
  simp only [List.append_assoc]

lemma addAskAiSteps_eq (g : TestStepGenerator) (s : List String) :
    addAskAiSteps g s = s ++ askAiSeg g s := by
  unfold addAskAiSteps askAiSeg
  split <;> simp

/-- Any generate call appends to the accumulated state: the final list is the
initial state followed by the login, tenant, launch, paradigm-branch and
final-verification segments, where the Ask AI scan of the tabbed branch reads
everything accumulated so far (including the pre-existing state). -/
lemma generateStepsFrom_decomp (g : TestStepGenerator) (navArg : Option (List String))
    (s : List String) :
    generateStepsFrom g navArg s =
      s ++ loginSeg g ++ tenantSeg g ++ launchSeg g ++
      (match (if g.ui_type = UI_TYPE_CHAT then g.ui_graph.entry_points else none) with
       | some ep => chatSeg g ep
       | none =>
         navigationSeg g (resolveNavArg navArg g) ++
           askAiSeg g (s ++ preParadigmSteps g ++ navigationSeg g (resolveNavArg navArg g)))
      ++ [verifyStepText g] := by
  simp only [generateStepsFrom, addFinalVerification, addLoginSteps_eq,
    addTenantSwitchingSteps_eq, addAppLaunchSteps_eq]
  cases hb : (if g.ui_type = UI_TYPE_CHAT then g.ui_graph.entry_points else none) with
  | some ep => simp [addChatUiSteps_eq]
  | none => simp [addNavigationSteps_eq, addAskAiSteps_eq, preParadigmSteps]

/-- A fresh generate call decomposes into the declarative segments. -/
lemma genSteps_decomp (g : TestStepGenerator) (navArg : Option (List String)) :
    genSteps g navArg =
      loginSeg g ++ tenantSeg g ++ launchSeg g ++ paradigmSeg g navArg ++
        [verifyStepText g] := by
  unfold genSteps paradigmSeg
  rw [generateStepsFrom_decomp]
  simp

/-- C1 (amended): a fresh generate call returns exactly the concatenation of
the instantiated login steps with their family-specific post-login wait, the
tenant-switching steps, the launch steps, the paradigm-specific interaction
steps (which include the post-hoc Ask AI scan on the tabbed path), and one
trailing final-verification step; and the tenant-switching steps are present
exactly when the supplied tenant name is truthy: they are omitted both when
no tenant name was supplied and when the supplied tenant name is the empty
string. -/
theorem generate_order_and_tenant_gate (g : TestStepGenerator)
    (navArg : Option (List String)) :
    genSteps g navArg =
      loginSeg g ++ tenantSeg g ++ launchSeg g ++ paradigmSeg g navArg ++
        [verifyStepText g] ∧
    (g.tenant_name = none → tenantSeg g = []) ∧
    (g.tenant_name = some "" → tenantSeg g = []) ∧
    (∀ t, g.tenant_name = some t → t ≠ "" → tenantSeg g = tenantStepsFormatted g) := by
  refine ⟨genSteps_decomp g navArg, ?_, ?_, ?_⟩
  · intro h; simp [tenantSeg, h]
  · intro h; simp [tenantSeg, h]
  · intro t h ht; simp [tenantSeg, h, ht]

/-- C1 witness: the amended statement instantiated at a generator with the
non-empty tenant name Acme. -/
theorem generate_order_and_tenant_gate_witness :
    genSteps genTenantNamed none =
      loginSeg genTenantNamed ++ tenantSeg genTenantNamed ++ launchSeg genTenantNamed ++
        paradigmSeg genTenantNamed none ++ [verifyStepText genTenantNamed] ∧
    (genTenantNamed.tenant_name = none → tenantSeg genTenantNamed = []) ∧
    (genTenantNamed.tenant_name = some "" → tenantSeg genTenantNamed = []) ∧
    (∀ t, genTenantNamed.tenant_name = some t → t ≠ "" →
      tenantSeg genTenantNamed = tenantStepsFormatted genTenantNamed) :=
  generate_order_and_tenant_gate genTenantNamed none

/-- C1 counterexample: supplying the empty string as tenant name is supplying
a tenant name, yet the generated sequence omits the tenant-switching steps,
so the claimed sequence (with the instantiated tenant steps included whenever
a tenant name was supplied) differs from the generated one. -/
theorem generate_order_and_tenant_gate_cex :
    genTenantEmptyName.tenant_name.isSome = true ∧
    ¬ (genSteps genTenantEmptyName none =
        loginSeg genTenantEmptyName ++ tenantStepsFormatted genTenantEmptyName ++
          launchSeg genTenantEmptyName ++ paradigmSeg genTenantEmptyName none ++
          [verifyStepText genTenantEmptyName]) := by
  constructor
  · rfl
  · decide

/-- C2 (amended): generate is deterministic in the generator state — it is a
pure function of the stored inputs and the accumulated self.steps list — but
it is stateful across calls on one instance: every call appends a non-empty
pass to the accumulated list, so a second call on the same instance returns a
strict extension of the first call result rather than a byte-identical one. -/
theorem generate_stateful_append (g : TestStepGenerator)
    (navArg : Option (List String)) (s : List String) :
    (∃ tail, tail ≠ [] ∧ generateStepsFrom g navArg s = s ++ tail) ∧
    generateStepsFrom g navArg (genSteps g navArg) ≠ genSteps g navArg := by
  have key : ∀ s0 : List String,
      ∃ tail, tail ≠ [] ∧ generateStepsFrom g navArg s0 = s0 ++ tail := by
    intro s0
    refine ⟨loginSeg g ++ tenantSeg g ++ launchSeg g ++
      (match (if g.ui_type = UI_TYPE_CHAT then g.ui_graph.entry_points else none) with
       | some ep => chatSeg g ep
       | none => navigationSeg g (resolveNavArg navArg g) ++
           askAiSeg g (s0 ++ preParadigmSteps g ++ navigationSeg g (resolveNavArg navArg g)))
      ++ [verifyStepText g], ?_, ?_⟩
    · simp
    · rw [generateStepsFrom_decomp]
      simp [List.append_assoc]
  refine ⟨key s, ?_⟩
  obtain ⟨tail, hne, heq⟩ := key (genSteps g navArg)
  rw [heq]
  intro hcontra
  have hlen := congrArg List.length hcontra
  rw [List.length_append] at hlen
  have h0 : tail.length = 0 := by omega
  exact hne (List.eq_nil_of_length_eq_zero h0)

/-- C2 counterexample: on one generator instance, a second generate call with
the same argument returns a different string from the first call, because the
accumulated self.steps list is replayed and extended. -/
theorem generate_stateful_append_cex :
    generateOutputFrom genFresh none (genSteps genFresh none) ≠ generate genFresh none := by
  decide

/-- C3: the UI-paradigm decision returns chat exactly when there are at least
two distinct conversational indicator kinds and at most one distinct tabbed
indicator kind, or (failing the tabbed test entirely, that is, no tabbed
kind) at least one conversational kind; in every other case it returns
tabbed_dashboard — matching the precedence chain of detect_ui_type. -/
theorem detect_ui_type_decision (ci ti : List String) :
    (detectUiTypeFromIndicators ci ti = UI_TYPE_CHAT ↔
      (2 ≤ ci.dedup.length ∧ ti.dedup.length ≤ 1) ∨
        (ti.dedup.length = 0 ∧ 1 ≤ ci.dedup.length)) ∧
    (detectUiTypeFromIndicators ci ti = UI_TYPE_CHAT ∨
      detectUiTypeFromIndicators ci ti = UI_TYPE_TABBED) := by
  simp only [detectUiTypeFromIndicators]
  split_ifs with h1 h2 h3
  · exact ⟨iff_of_true rfl (Or.inl h1), Or.inl rfl⟩
  · refine ⟨iff_of_false (by decide) fun hc => ?_, Or.inr rfl⟩
    rcases hc with h | h
    · exact h1 h
    · omega
  · exact ⟨iff_of_true rfl (Or.inr ⟨by omega, h3⟩), Or.inl rfl⟩
  · refine ⟨iff_of_false (by decide) fun hc => ?_, Or.inr rfl⟩
    rcases hc with h | h <;> omega

/-- C10: a generator constructed with the chat ui_type but without a truthy
entry_points value in its graph takes the tabbed-dashboard branch of
generate: the paradigm portion is the navigation segment followed by the
post-hoc Ask AI scan, and no chat segment is emitted. -/
theorem chat_without_entry_points_takes_tabbed_path (g : TestStepGenerator)
    (navArg : Option (List String)) (hui : g.ui_type = UI_TYPE_CHAT)
    (hep : g.ui_graph.entry_points = none) :
    genSteps g navArg =
      loginSeg g ++ tenantSeg g ++ launchSeg g ++
        (navigationSeg g (resolveNavArg navArg g) ++
          askAiSeg g (preParadigmSteps g ++ navigationSeg g (resolveNavArg navArg g))) ++
        [verifyStepText g] ∧
    paradigmSeg g navArg =
      navigationSeg g (resolveNavArg navArg g) ++
        askAiSeg g (preParadigmSteps g ++ navigationSeg g (resolveNavArg navArg g)) := by
  have hsc : (if g.ui_type = UI_TYPE_CHAT then g.ui_graph.entry_points else none) = none := by
    simp [hui, hep]
  have hp : paradigmSeg g navArg =
      navigationSeg g (resolveNavArg navArg g) ++
        askAiSeg g (preParadigmSteps g ++ navigationSeg g (resolveNavArg navArg g)) := by
    unfold paradigmSeg
    rw [hsc]
  exact ⟨by rw [genSteps_decomp, hp], hp⟩

/-- C10 witness: the statement instantiated at a chat-typed generator whose
graph has no truthy entry points. -/
theorem chat_without_entry_points_takes_tabbed_path_witness :
    genChatNoEntry.ui_type = UI_TYPE_CHAT ∧
    genChatNoEntry.ui_graph.entry_points = none ∧
    (genSteps genChatNoEntry none =
      loginSeg genChatNoEntry ++ tenantSeg genChatNoEntry ++ launchSeg genChatNoEntry ++
        (navigationSeg genChatNoEntry (resolveNavArg none genChatNoEntry) ++
          askAiSeg genChatNoEntry (preParadigmSteps genChatNoEntry ++
            navigationSeg genChatNoEntry (resolveNavArg none genChatNoEntry))) ++
        [verifyStepText genChatNoEntry] ∧
    paradigmSeg genChatNoEntry none =
      navigationSeg genChatNoEntry (resolveNavArg none genChatNoEntry) ++
        askAiSeg genChatNoEntry (preParadigmSteps genChatNoEntry ++
          navigationSeg genChatNoEntry (resolveNavArg none genChatNoEntry))) :=
  ⟨rfl, rfl, chat_without_entry_points_takes_tabbed_path genChatNoEntry none rfl rfl⟩

/-!
Deduplication lemmas for the first-seen-order dict.fromkeys model.
-/

lemma dedupKeepFirstAux_mem : ∀ (l seen : List String) (x : String),
    x ∈ dedupKeepFirstAux l seen → x ∈ l ∧ x ∉ seen
  | [], _, x, h => by simp [dedupKeepFirstAux] at h
  | a :: l, seen, x, h => by
    by_cases ha : a ∈ seen
    · simp only [dedupKeepFirstAux, if_pos ha] at h
      have hr := dedupKeepFirstAux_mem l seen x h
      exact ⟨List.mem_cons_of_mem _ hr.1, hr.2⟩
    · simp only [dedupKeepFirstAux, if_neg ha] at h
      rcases List.mem_cons.mp h with rfl | h2
      · exact ⟨List.mem_cons_self _ _, ha⟩
      · have hr := dedupKeepFirstAux_mem l (a :: seen) x h2
        exact ⟨List.mem_cons_of_mem _ hr.1,
          fun hx => hr.2 (List.mem_cons_of_mem _ hx)⟩

lemma dedupKeepFirstAux_nodup : ∀ (l seen : List String),
    (dedupKeepFirstAux l seen).Nodup
  | [], _ => by simp [dedupKeepFirstAux]
  | a :: l, seen => by
    by_cases ha : a ∈ seen
    · simp only [dedupKeepFirstAux, if_pos ha]
      exact dedupKeepFirstAux_nodup l seen
    · simp only [dedupKeepFirstAux, if_neg ha]
      refine List.nodup_cons.mpr ⟨fun hmem => ?_, dedupKeepFirstAux_nodup l (a :: seen)⟩
      exact (dedupKeepFirstAux_mem l (a :: seen) a hmem).2 (List.mem_cons_self a seen)

lemma dedupKeepFirstAux_sublist : ∀ (l seen : List String),
    List.Sublist (dedupKeepFirstAux l seen) l
  | [], _ => by simp [dedupKeepFirstAux]
  | a :: l, seen => by
    by_cases ha : a ∈ seen
    · simp only [dedupKeepFirstAux, if_pos ha]
      exact (dedupKeepFirstAux_sublist l seen).cons a
    · simp only [dedupKeepFirstAux, if_neg ha]
      exact (dedupKeepFirstAux_sublist l (a :: seen)).cons₂ a

/-- The seen-set loop computes the reference first-seen deduplication of the
input with the already-seen values removed. -/
lemma dedupKeepFirstAux_eq_firstSeen : ∀ (l seen : List String),
    dedupKeepFirstAux l seen = firstSeenDedup (l.filter (fun y => y ∉ seen))
  | [], seen => by simp [dedupKeepFirstAux, firstSeenDedup]
  | x :: xs, seen => by
    by_cases hx : x ∈ seen
    · simp only [dedupKeepFirstAux, if_pos hx]
      rw [dedupKeepFirstAux_eq_firstSeen xs seen]
      congr 1
      simp [List.filter_cons, hx]
    · simp only [dedupKeepFirstAux, if_neg hx]
      rw [dedupKeepFirstAux_eq_firstSeen xs (x :: seen)]
      have hf : List.filter (fun y => y ∉ seen) (x :: xs) =
          x :: xs.filter (fun y => y ∉ seen) := by
        simp [List.filter_cons, hx]
      rw [hf]
      simp only [firstSeenDedup]
      congr 1
      rw [List.filter_filter]
      congr 1
      apply List.filter_congr
      intro y hy
      by_cases h1 : y = x <;> by_cases h2 : y ∈ seen <;> simp [h1, h2]

/-- list(dict.fromkeys(l)) is exactly the first-seen deduplication of l. -/
lemma dedupKeepFirst_eq_firstSeen (l : List String) :
    dedupKeepFirst l = firstSeenDedup l := by
  rw [dedupKeepFirst, dedupKeepFirstAux_eq_firstSeen]
  congr 1
  simp

/-- C4 (amended): the navigation sequence stored in the UIGraph has no two
identical items — deduplication is exact (case-sensitive), performed by
dict.fromkeys over the normalized items — and first-seen insertion order is
preserved among the surviving items: the result is a sublist of the
normalized raw sequence, the dict.fromkeys pass equals the reference
first-seen deduplication (keep the first occurrence of each value, drop the
later duplicates), and the stored sequence is exactly that first-seen
deduplication with the reserved tokens filtered out. Case-insensitive
deduplication happens only later, in the composer. -/
theorem extract_navigation_nodup_ordered (navRaw : List String) :
    (extractNavigationPost navRaw).Nodup ∧
    List.Sublist (extractNavigationPost navRaw)
      ((navRaw.filter (fun item => item ≠ "")).map normalize_nav_item) ∧
    dedupKeepFirst ((navRaw.filter (fun item => item ≠ "")).map normalize_nav_item) =
      firstSeenDedup ((navRaw.filter (fun item => item ≠ "")).map normalize_nav_item) ∧
    extractNavigationPost navRaw =
      (firstSeenDedup ((navRaw.filter (fun item => item ≠ "")).map normalize_nav_item)).filter
        (fun item => !(reservedNavTokens.contains (pyLower item))) := by
  have h3 := dedupKeepFirst_eq_firstSeen
    ((navRaw.filter (fun item => item ≠ "")).map normalize_nav_item)
  refine ⟨?_, ?_, h3, ?_⟩
  · unfold extractNavigationPost dedupKeepFirst
    exact (dedupKeepFirstAux_nodup _ _).filter _
  · unfold extractNavigationPost dedupKeepFirst
    exact (List.filter_sublist _).trans (dedupKeepFirstAux_sublist _ _)
  · simp only [extractNavigationPost]
    rw [h3]

/-- C4 counterexample: the raw items Overview and overview normalize to
distinct strings that are equal case-insensitively, and both are stored, so
the stored sequence is not case-insensitively duplicate-free. -/
theorem extract_navigation_nodup_ordered_cex :
    ¬ (extractNavigationPost ["Overview", "overview"]).Pairwise
        (fun a b => pyLower a ≠ pyLower b) := by
  intro h
  have he : extractNavigationPost ["Overview", "overview"] = ["Overview", "overview"] := by
    decide
  rw [he] at h
  exact (List.pairwise_cons.mp h).1 "overview" (List.mem_singleton.mpr rfl) (by decide)

/-- C5: every item stored by the navigation extractor survives the reserved
token filter: it is not empty, not a bare slash, and its lower-case form is
neither askai nor ask-ai. -/
theorem extract_navigation_drops_reserved (navRaw : List String) (item : String)
    (h : item ∈ extractNavigationPost navRaw) :
    item ≠ "" ∧ item ≠ "/" ∧ pyLower item ≠ "askai" ∧ pyLower item ≠ "ask-ai" := by
  unfold extractNavigationPost at h
  have hp := (List.mem_filter.mp h).2
  simp [reservedNavTokens, not_or] at hp
  obtain ⟨h1, h2, h3, h4⟩ := hp
  refine ⟨?_, ?_, h3, h4⟩
  · intro he; subst he; exact h1 (by decide)
  · intro he; subst he; exact h2 (by decide)

/-- C5 witness: the theorem instantiated at the surviving item Overview of a
one-item extraction run. -/
theorem extract_navigation_drops_reserved_witness :
    "Overview" ∈ extractNavigationPost ["Overview"] ∧
    ("Overview" ≠ "" ∧ "Overview" ≠ "/" ∧ pyLower "Overview" ≠ "askai" ∧
      pyLower "Overview" ≠ "ask-ai") :=
  ⟨by decide, extract_navigation_drops_reserved ["Overview"] "Overview" (by decide)⟩

lemma detectUiType_chat_or_tabbed (ci ti : List String) :
    detectUiTypeFromIndicators ci ti = UI_TYPE_CHAT ∨
      detectUiTypeFromIndicators ci ti = UI_TYPE_TABBED := by
  simp only [detectUiTypeFromIndicators]
  split_ifs <;> simp

lemma sendMessage_mem_main (s m : List String) :
    "Send message" ∈ (extractChatEntryPoints s m).main := by
  unfold extractChatEntryPoints
  by_cases h : "Send message" ∈ dedupKeepFirst m
  · simp [h]
  · simp [h]

/-- C6: the built UIGraph has a paradigm that is chat or tabbed_dashboard;
a chat graph stores an empty navigation sequence and truthy entry points
whose main bucket is non-empty and contains the Send message action even when
the scan produced no evidence of it; a tabbed graph stores no entry points. -/
theorem analyze_graph_paradigm_shape (chatInd tabbedInd sidebarRaw mainRaw navRaw : List String)
    (tabEls : List (String × List String)) :
    ((analyzeGraph chatInd tabbedInd sidebarRaw mainRaw navRaw tabEls).ui_type = UI_TYPE_CHAT ∨
      (analyzeGraph chatInd tabbedInd sidebarRaw mainRaw navRaw tabEls).ui_type = UI_TYPE_TABBED) ∧
    ((analyzeGraph chatInd tabbedInd sidebarRaw mainRaw navRaw tabEls).ui_type = UI_TYPE_CHAT →
      (analyzeGraph chatInd tabbedInd sidebarRaw mainRaw navRaw tabEls).navigation_items = [] ∧
      ∃ ep, (analyzeGraph chatInd tabbedInd sidebarRaw mainRaw navRaw tabEls).entry_points = some ep ∧
        ep.main ≠ [] ∧ "Send message" ∈ ep.main) ∧
    ((analyzeGraph chatInd tabbedInd sidebarRaw mainRaw navRaw tabEls).ui_type = UI_TYPE_TABBED →
      (analyzeGraph chatInd tabbedInd sidebarRaw mainRaw navRaw tabEls).entry_points = none) := by
  unfold analyzeGraph
  by_cases hd : detectUiTypeFromIndicators chatInd tabbedInd = UI_TYPE_CHAT
  · simp only [if_pos hd]
    exact ⟨Or.inl trivial, fun _ => ⟨trivial, extractChatEntryPoints sidebarRaw mainRaw, rfl,
      List.ne_nil_of_mem (sendMessage_mem_main sidebarRaw mainRaw),
      sendMessage_mem_main sidebarRaw mainRaw⟩, fun hct => absurd hct (by decide)⟩
  · simp only [if_neg hd]
    exact ⟨Or.inr trivial, fun hct => absurd hct (by decide), fun _ => trivial⟩

/-- C6 witness: the theorem instantiated at a run with two conversational
indicator kinds and no raw main label, where the chat branch is taken and the
Send message action is injected. -/
theorem analyze_graph_paradigm_shape_witness :
    ((analyzeGraph ["new_chat", "chat_input"] [] ["New chat"] [] [] []).ui_type = UI_TYPE_CHAT ∨
      (analyzeGraph ["new_chat", "chat_input"] [] ["New chat"] [] [] []).ui_type = UI_TYPE_TABBED) ∧
    ((analyzeGraph ["new_chat", "chat_input"] [] ["New chat"] [] [] []).ui_type = UI_TYPE_CHAT →
      (analyzeGraph ["new_chat", "chat_input"] [] ["New chat"] [] [] []).navigation_items = [] ∧
      ∃ ep, (analyzeGraph ["new_chat", "chat_input"] [] ["New chat"] [] [] []).entry_points = some ep ∧
        ep.main ≠ [] ∧ "Send message" ∈ ep.main) ∧
    ((analyzeGraph ["new_chat", "chat_input"] [] ["New chat"] [] [] []).ui_type = UI_TYPE_TABBED →
      (analyzeGraph ["new_chat", "chat_input"] [] ["New chat"] [] [] []).entry_points = none) :=
  analyze_graph_paradigm_shape ["new_chat", "chat_input"] [] ["New chat"] [] [] []

/-- C8 (amended): when no navigation item survives normalization and the
tabbed branch is taken, the navigation segment is exactly the
load-verification step, a wait, and an error-verification step — no tab click
steps, hence no fabricated tab names — and the whole paradigm-specific
portion equals that block followed only by whatever the post-hoc Ask AI scan
appends; when the scan does not fire on the text emitted so far, the
paradigm-specific portion is exactly the three-step block. -/
theorem tabbed_empty_nav_degrades (g : TestStepGenerator) (navArg : Option (List String))
    (hnav : uniqueNavItems (resolveNavArg navArg g) = [])
    (hbranch : (if g.ui_type = UI_TYPE_CHAT then g.ui_graph.entry_points else none) = none) :
    navigationSeg g (resolveNavArg navArg g) =
      ["Verify application loaded with AI", waitStep (tabClickSec g), verifyStepText g] ∧
    paradigmSeg g navArg =
      ["Verify application loaded with AI", waitStep (tabClickSec g), verifyStepText g] ++
        askAiSeg g (preParadigmSteps g ++
          ["Verify application loaded with AI", waitStep (tabClickSec g), verifyStepText g]) ∧
    (hasAskAiText (preParadigmSteps g ++
        ["Verify application loaded with AI", waitStep (tabClickSec g), verifyStepText g]) = false →
      paradigmSeg g navArg =
        ["Verify application loaded with AI", waitStep (tabClickSec g), verifyStepText g]) := by
  have hns : navigationSeg g (resolveNavArg navArg g) = degradeBlock g := by
    unfold navigationSeg
    rw [if_pos hnav]
  have hdeg : degradeBlock g =
      ["Verify application loaded with AI", waitStep (tabClickSec g), verifyStepText g] := rfl
  have hp : paradigmSeg g navArg =
      ["Verify application loaded with AI", waitStep (tabClickSec g), verifyStepText g] ++
        askAiSeg g (preParadigmSteps g ++
          ["Verify application loaded with AI", waitStep (tabClickSec g), verifyStepText g]) := by
    unfold paradigmSeg
    rw [hbranch]
    simp only [hns, hdeg]
  refine ⟨hns.trans hdeg, hp, fun hno => ?_⟩
  rw [hp]
  unfold askAiSeg
  rw [hno]
  simp

/-- C8 witness: the amended statement instantiated at a generator with an
empty graph and a URL that does not mention Ask AI. -/
theorem tabbed_empty_nav_degrades_witness :
    uniqueNavItems (resolveNavArg none genFresh) = [] ∧
    (if genFresh.ui_type = UI_TYPE_CHAT then genFresh.ui_graph.entry_points else none) = none ∧
    (navigationSeg genFresh (resolveNavArg none genFresh) =
      ["Verify application loaded with AI", waitStep (tabClickSec genFresh), verifyStepText genFresh] ∧
    paradigmSeg genFresh none =
      ["Verify application loaded with AI", waitStep (tabClickSec genFresh), verifyStepText genFresh] ++
        askAiSeg genFresh (preParadigmSteps genFresh ++
          ["Verify application loaded with AI", waitStep (tabClickSec genFresh), verifyStepText genFresh]) ∧
    (hasAskAiText (preParadigmSteps genFresh ++
        ["Verify application loaded with AI", waitStep (tabClickSec genFresh), verifyStepText genFresh]) = false →
      paradigmSeg genFresh none =
        ["Verify application loaded with AI", waitStep (tabClickSec genFresh), verifyStepText genFresh])) :=
  ⟨by decide, by decide, tabbed_empty_nav_degrades genFresh none (by decide) (by decide)⟩

/-- C8 counterexample: a tabbed run with no extracted navigation items whose
app URL mentions AskAI — the launch step Open x/apps/AskAI/T makes the
post-hoc Ask AI scan fire, so the paradigm-specific portion is the degrade
block followed by the Ask AI round trip, not the degrade block alone. -/
theorem tabbed_empty_nav_degrades_cex :
    uniqueNavItems (resolveNavArg none genAskAiUrl) = [] ∧
    ¬ (paradigmSeg genAskAiUrl none =
        ["Verify application loaded with AI", waitStep (tabClickSec genAskAiUrl),
         verifyStepText genAskAiUrl]) := by
  exact ⟨by decide, by decide⟩

/-- C9: the comprehensive expansion for a tab is exactly the paradigm-agnostic
scroll-probe pair followed by the element-conditional probe families, each
emitted exactly when one of its element tags is in the detected inventory of
the tab; in particular, when no probe tag is detected, nothing beyond the
scroll probes is emitted, and in comprehensive mode the expansion follows
immediately after the tab click triple. -/
theorem comprehensive_probes_gated (g : TestStepGenerator) (tab : String)
    (steps : List String) :
    addComprehensiveStepsForTab g tab steps =
      steps ++ scrollProbeBlock g ++
        compProbeRules.flatMap (fun r =>
          if ∃ t ∈ r.tags, t ∈ detectedElementsFor g tab then r.block g else []) ∧
    ((∀ r ∈ compProbeRules, ∀ t ∈ r.tags, t ∉ detectedElementsFor g tab) →
      addComprehensiveStepsForTab g tab steps = steps ++ scrollProbeBlock g) ∧
    (comprehensiveMode g = true →
      navStepBlock g tab =
        ["Click on " ++ tab ++ " with AI", waitStep (tabClickSec g), verifyStepText g] ++
          compSeg g tab) := by
  refine ⟨?_, ?_, ?_⟩
  · rw [addComprehensiveStepsForTab_eq]
    simp only [compSeg, List.append_assoc]
  · intro habs
    rw [addComprehensiveStepsForTab_eq]
    have hnil : compProbeRules.flatMap (fun r =>
        if ∃ t ∈ r.tags, t ∈ detectedElementsFor g tab then r.block g else []) = [] := by
      rw [List.flatMap_eq_nil_iff]
      intro r hr
      rw [if_neg]
      rintro ⟨t, ht, htd⟩
      exact habs r hr t ht htd
    simp only [compSeg, hnil, List.append_nil]
  · intro hc
    simp [navStepBlock, hc]

/-- C9 witness: the statement instantiated at a comprehensive-mode generator
whose TAB1 inventory holds exactly a dropdown. -/
theorem comprehensive_probes_gated_witness :
    addComprehensiveStepsForTab genComp "TAB1" [] =
      [] ++ scrollProbeBlock genComp ++
        compProbeRules.flatMap (fun r =>
          if ∃ t ∈ r.tags, t ∈ detectedElementsFor genComp "TAB1" then r.block genComp else []) ∧
    ((∀ r ∈ compProbeRules, ∀ t ∈ r.tags, t ∉ detectedElementsFor genComp "TAB1") →
      addComprehensiveStepsForTab genComp "TAB1" [] = [] ++ scrollProbeBlock genComp) ∧
    (comprehensiveMode genComp = true →
      navStepBlock genComp "TAB1" =
        ["Click on " ++ "TAB1" ++ " with AI", waitStep (tabClickSec genComp),
          verifyStepText genComp] ++ compSeg genComp "TAB1") :=
  comprehensive_probes_gated genComp "TAB1" []

/-!
Properties of the per-code-point string comparison and of the canonical
navigation sort key used by add_navigation_steps.
-/

lemma charsLe_total : ∀ a b : List Char, charsLe a b = true ∨ charsLe b a = true
  | [], _ => Or.inl rfl
  | _ :: _, [] => Or.inr rfl
  | a :: as, b :: bs => by
    rcases lt_trichotomy a b with h | h | h
    · left
      simp [charsLe, h]
    · subst h
      rcases charsLe_total as bs with ih | ih
      · left
        simp [charsLe, lt_irrefl, ih]
      · right
        simp [charsLe, lt_irrefl, ih]
    · right
      simp [charsLe, h]

lemma charsLe_trans : ∀ a b c : List Char,
    charsLe a b = true → charsLe b c = true → charsLe a c = true
  | [], _, _, _, _ => rfl
  | _ :: _, [], _, h1, _ => by simp [charsLe] at h1
  | _ :: _, _ :: _, [], _, h2 => by simp [charsLe] at h2
  | a :: as, b :: bs, c :: cs, h1, h2 => by
    rcases lt_trichotomy a b with hab | hab | hab
    · rcases lt_trichotomy b c with hbc | hbc | hbc
      · simp [charsLe, lt_trans hab hbc]
      · subst hbc
        simp [charsLe, hab]
      · exfalso
        simp [charsLe, lt_asymm hbc, hbc] at h2
    · subst hab
      have h1t : charsLe as bs = true := by simpa [charsLe, lt_irrefl] using h1
      rcases lt_trichotomy a c with hac | hac | hac
      · simp [charsLe, hac]
      · subst hac
        have h2t : charsLe bs cs = true := by simpa [charsLe, lt_irrefl] using h2
        simp [charsLe, lt_irrefl, charsLe_trans as bs cs h1t h2t]
      · exfalso
        simp [charsLe, lt_asymm hac, hac] at h2
    · exfalso
      simp [charsLe, lt_asymm hab, hab] at h1

lemma charsLe_antisymm : ∀ a b : List Char,
    charsLe a b = true → charsLe b a = true → a = b
  | [], [], _, _ => rfl
  | [], _ :: _, _, h2 => by simp [charsLe] at h2
  | _ :: _, [], h1, _ => by simp [charsLe] at h1
  | a :: as, b :: bs, h1, h2 => by
    rcases lt_trichotomy a b with h | h | h
    · exfalso
      simp [charsLe, lt_asymm h, h] at h2
    · subst h
      have h1t : charsLe as bs = true := by simpa [charsLe, lt_irrefl] using h1
      have h2t : charsLe bs as = true := by simpa [charsLe, lt_irrefl] using h2
      rw [charsLe_antisymm as bs h1t h2t]
    · exfalso
      simp [charsLe, lt_asymm h, h] at h1

lemma navLeB_iff (a b : String) :
    navLeB a b = true ↔
      navOrderRank a < navOrderRank b ∨
        (navOrderRank a = navOrderRank b ∧ pyStrLe a b = true) := by
  simp [navLeB]

lemma navRel_total : IsTotal String navRel := by
  refine ⟨fun a b => ?_⟩
  simp only [navRel, navLeB_iff]
  rcases lt_trichotomy (navOrderRank a) (navOrderRank b) with h | h | h
  · exact Or.inl (Or.inl h)
  · rcases charsLe_total a.data b.data with hc | hc
    · exact Or.inl (Or.inr ⟨h, hc⟩)
    · exact Or.inr (Or.inr ⟨h.symm, hc⟩)
  · exact Or.inr (Or.inl h)

lemma navRel_trans : IsTrans String navRel := by
  refine ⟨fun a b c h1 h2 => ?_⟩
  simp only [navRel, navLeB_iff] at h1 h2 ⊢
  rcases h1 with h1 | ⟨he1, hl1⟩
  · rcases h2 with h2 | ⟨he2, _⟩
    · exact Or.inl (lt_trans h1 h2)
    · exact Or.inl (by omega)
  · rcases h2 with h2 | ⟨he2, hl2⟩
    · exact Or.inl (by omega)
    · exact Or.inr ⟨he1.trans he2, charsLe_trans _ _ _ hl1 hl2⟩

lemma navRel_antisymm : IsAntisymm String navRel := by
  refine ⟨fun a b h1 h2 => ?_⟩
  simp only [navRel, navLeB_iff] at h1 h2
  rcases h1 with h1 | ⟨he1, hl1⟩
  · rcases h2 with h2 | ⟨he2, _⟩
    · exact absurd (lt_trans h1 h2) (lt_irrefl _)
    · exact absurd h1 (by omega)
  · rcases h2 with h2 | ⟨he2, hl2⟩
    · exact absurd h2 (by omega)
    · exact String.ext (charsLe_antisymm _ _ hl1 hl2)

lemma alphaRel_total : IsTotal String alphaRel :=
  ⟨fun a b => charsLe_total a.data b.data⟩

lemma alphaRel_trans : IsTrans String alphaRel :=
  ⟨fun a b c => charsLe_trans a.data b.data c.data⟩

lemma uniqueNavItemsAux_mem : ∀ (l seen : List String) (x : String),
    x ∈ uniqueNavItemsAux l seen → x ∉ seen
  | [], _, x, h => by simp [uniqueNavItemsAux] at h
  | item :: rest, seen, x, h => by
    by_cases hc : cleanNavStepItem item = ""
    · simp only [uniqueNavItemsAux, if_pos hc] at h
      exact uniqueNavItemsAux_mem rest seen x h
    · simp only [uniqueNavItemsAux, if_neg hc] at h
      by_cases hm : normalizedNavLabel item ∈ seen
      · rw [if_pos hm] at h
        exact uniqueNavItemsAux_mem rest seen x h
      · rw [if_neg hm] at h
        rcases List.mem_cons.mp h with rfl | h2
        · exact hm
        · have hr := uniqueNavItemsAux_mem rest (normalizedNavLabel item :: seen) x h2
          exact fun hx => hr (List.mem_cons_of_mem _ hx)

lemma uniqueNavItemsAux_nodup : ∀ (l seen : List String),
    (uniqueNavItemsAux l seen).Nodup
  | [], _ => by simp [uniqueNavItemsAux]
  | item :: rest, seen => by
    by_cases hc : cleanNavStepItem item = ""
    · simp only [uniqueNavItemsAux, if_pos hc]
      exact uniqueNavItemsAux_nodup rest seen
    · simp only [uniqueNavItemsAux, if_neg hc]
      by_cases hm : normalizedNavLabel item ∈ seen
      · rw [if_pos hm]
        exact uniqueNavItemsAux_nodup rest seen
      · rw [if_neg hm]
        refine List.nodup_cons.mpr
          ⟨fun hmem => ?_, uniqueNavItemsAux_nodup rest (normalizedNavLabel item :: seen)⟩
        exact uniqueNavItemsAux_mem rest (normalizedNavLabel item :: seen)
          (normalizedNavLabel item) hmem (List.mem_cons_self _ _)

lemma uniqueNavItems_nodup (nav : List String) : (uniqueNavItems nav).Nodup :=
  uniqueNavItemsAux_nodup nav []

lemma navOrderRank_of_not_canon {x : String} (h : x ∉ canonNavNames) :
    navOrderRank x = 99 := by
  simp only [canonNavNames, List.mem_cons, List.not_mem_nil, or_false, not_or] at h
  obtain ⟨h1, h2, h3⟩ := h
  simp [navOrderRank, h1, h2, h3]

lemma mem_filter_not_canon {u : List String} {x : String}
    (hx : x ∈ u.filter notCanon) : x ∉ canonNavNames := by
  simpa [notCanon] using (List.mem_filter.mp hx).2

lemma count_filter_not_canon_of_canon {u : List String} {x : String}
    (hx : x ∈ canonNavNames) :
    List.count x (u.filter notCanon) = 0 := by
  refine List.count_eq_zero_of_not_mem fun hm => ?_
  exact mem_filter_not_canon hm hx

/-- The canonical arrangement is a permutation of any duplicate-free list
that contains OVERVIEW and SCHEDULE. -/
lemma canonical_perm (u : List String) (hu : u.Nodup)
    (hO : "OVERVIEW" ∈ u) (hS : "SCHEDULE" ∈ u) :
    ("OVERVIEW" :: "SCHEDULE" ::
      ((if "ASK AI" ∈ u then ["ASK AI"] else []) ++
        List.insertionSort alphaRel (u.filter notCanon))).Perm u := by
  rw [List.perm_iff_count]
  intro a
  have hsortc : List.count a
      (List.insertionSort alphaRel (u.filter notCanon)) =
      List.count a (u.filter notCanon) :=
    (List.perm_insertionSort alphaRel _).count_eq a
  simp only [List.count_cons, List.count_append, hsortc]
  by_cases haO : a = "OVERVIEW"
  · subst haO
    have h1 : List.count "OVERVIEW" u = 1 := List.count_eq_one_of_mem hu hO
    have h0 : List.count "OVERVIEW" (u.filter notCanon) = 0 :=
      count_filter_not_canon_of_canon (by simp [canonNavNames])
    by_cases hA : "ASK AI" ∈ u <;> simp [hA, h0, h1]
  · by_cases haS : a = "SCHEDULE"
    · subst haS
      have h1 : List.count "SCHEDULE" u = 1 := List.count_eq_one_of_mem hu hS
      have h0 : List.count "SCHEDULE" (u.filter notCanon) = 0 :=
        count_filter_not_canon_of_canon (by simp [canonNavNames])
      by_cases hA : "ASK AI" ∈ u <;> simp [hA, h0, h1, haO]
    · by_cases haA : a = "ASK AI"
      · subst haA
        have h0 : List.count "ASK AI" (u.filter notCanon) = 0 :=
          count_filter_not_canon_of_canon (by simp [canonNavNames])
        by_cases hA : "ASK AI" ∈ u
        · have h1 : List.count "ASK AI" u = 1 := List.count_eq_one_of_mem hu hA
          simp [hA, h0, h1, haO, haS]
        · have h1 : List.count "ASK AI" u = 0 := List.count_eq_zero_of_not_mem hA
          simp [hA, h0, h1, haO, haS]
      · have hnc : a ∉ canonNavNames := by
          simp [canonNavNames, haO, haS, haA]
        have hf : List.count a (u.filter notCanon) =
            List.count a u := List.count_filter (by simp [notCanon, hnc])
        by_cases hA : "ASK AI" ∈ u <;>
          simp [hA, hf, haO, haS, haA, Ne.symm haO, Ne.symm haS, Ne.symm haA]

/-- The canonical arrangement is sorted for the composite navigation key. -/
lemma canonical_sorted (u : List String) :
    List.Sorted navRel
      ("OVERVIEW" :: "SCHEDULE" ::
        ((if "ASK AI" ∈ u then ["ASK AI"] else []) ++
          List.insertionSort alphaRel (u.filter notCanon))) := by
  haveI := alphaRel_total
  haveI := alphaRel_trans
  have hmem_tail : ∀ x ∈ List.insertionSort alphaRel (u.filter notCanon),
      navOrderRank x = 99 := by
    intro x hx
    exact navOrderRank_of_not_canon
      (mem_filter_not_canon ((List.perm_insertionSort alphaRel _).mem_iff.mp hx))
  have htail : List.Sorted navRel
      (List.insertionSort alphaRel (u.filter notCanon)) := by
    refine List.Pairwise.imp_of_mem ?_
      (List.sorted_insertionSort alphaRel (u.filter notCanon))
    intro a b ha hb hab
    show navLeB a b = true
    rw [navLeB_iff]
    exact Or.inr ⟨by rw [hmem_tail a ha, hmem_tail b hb], hab⟩
  have hAblock : ∀ x ∈ (if "ASK AI" ∈ u then (["ASK AI"] : List String) else []),
      x = "ASK AI" := by
    intro x hx
    by_cases hA : "ASK AI" ∈ u
    · rw [if_pos hA] at hx
      exact List.mem_singleton.mp hx
    · rw [if_neg hA] at hx
      exact absurd hx (List.not_mem_nil x)
  refine List.sorted_cons.mpr ⟨?_, List.sorted_cons.mpr ⟨?_, ?_⟩⟩
  · intro b hb
    rcases List.mem_cons.mp hb with rfl | hb2
    · decide
    · rcases List.mem_append.mp hb2 with hA | hT
      · rw [hAblock b hA]
        decide
      · show navLeB "OVERVIEW" b = true
        rw [navLeB_iff]
        left
        rw [hmem_tail b hT, show navOrderRank "OVERVIEW" = 1 from by decide]
        omega
  · intro b hb
    rcases List.mem_append.mp hb with hA | hT
    · rw [hAblock b hA]
      decide
    · show navLeB "SCHEDULE" b = true
      rw [navLeB_iff]
      left
      rw [hmem_tail b hT, show navOrderRank "SCHEDULE" = 2 from by decide]
      omega
  · refine List.pairwise_append.mpr ⟨?_, htail, ?_⟩
    · by_cases hA : "ASK AI" ∈ u <;> simp [hA]
    · intro x hx y hy
      rw [hAblock x hx]
      show navLeB "ASK AI" y = true
      rw [navLeB_iff]
      left
      rw [hmem_tail y hy, show navOrderRank "ASK AI" = 3 from by decide]
      omega

/-- The in-place sort of add_navigation_steps puts OVERVIEW first, SCHEDULE
second, ASK AI (when present) third, and the remaining labels after them in
alphabetical (per-code-point) order. -/
lemma sortNav_canonical (u : List String) (hu : u.Nodup)
    (hO : "OVERVIEW" ∈ u) (hS : "SCHEDULE" ∈ u) :
    sortNavItems u =
      "OVERVIEW" :: "SCHEDULE" ::
        ((if "ASK AI" ∈ u then ["ASK AI"] else []) ++
          List.insertionSort alphaRel (u.filter notCanon)) := by
  haveI := navRel_total
  haveI := navRel_trans
  haveI := navRel_antisymm
  exact @List.eq_of_perm_of_sorted String navRel navRel_antisymm _ _
    ((List.perm_insertionSort navRel u).trans (canonical_perm u hu hO hS).symm)
    (List.sorted_insertionSort navRel u) (canonical_sorted u)

/-- C7: whenever the normalized unique navigation items contain OVERVIEW and
SCHEDULE (and possibly further items), the emitted per-item step blocks visit
OVERVIEW first, then SCHEDULE, then ASK AI when present, then the remaining
unmatched items in alphabetical order of their normalized upper-case label. -/
theorem tabbed_canonical_click_order (g : TestStepGenerator) (nav : List String)
    (hO : "OVERVIEW" ∈ uniqueNavItems nav) (hS : "SCHEDULE" ∈ uniqueNavItems nav) :
    navigationSeg g nav =
      ("OVERVIEW" :: "SCHEDULE" ::
        ((if "ASK AI" ∈ uniqueNavItems nav then ["ASK AI"] else []) ++
          List.insertionSort alphaRel
            ((uniqueNavItems nav).filter notCanon))).flatMap
        (navStepBlock g) := by
  have hne : uniqueNavItems nav ≠ [] := fun h => by rw [h] at hO; exact absurd hO (by simp)
  unfold navigationSeg
  rw [if_neg hne, sortNav_canonical _ (uniqueNavItems_nodup nav) hO hS]

/-- C7 witness: the statement instantiated at the raw items billing, overview
and schedule: the clicks run OVERVIEW, SCHEDULE, BILLING. -/
theorem tabbed_canonical_click_order_witness :
    "OVERVIEW" ∈ uniqueNavItems ["billing", "overview", "schedule"] ∧
    "SCHEDULE" ∈ uniqueNavItems ["billing", "overview", "schedule"] ∧
    navigationSeg genFresh ["billing", "overview", "schedule"] =
      ("OVERVIEW" :: "SCHEDULE" ::
        ((if "ASK AI" ∈ uniqueNavItems ["billing", "overview", "schedule"] then ["ASK AI"]
          else []) ++
          List.insertionSort alphaRel
            ((uniqueNavItems ["billing", "overview", "schedule"]).filter
              notCanon))).flatMap (navStepBlock genFresh) :=
  ⟨by decide, by decide,
    tabbed_canonical_click_order genFresh ["billing", "overview", "schedule"]
      (by decide) (by decide)⟩

end GenerateTestSteps
